import Mathlib

/-!
# AVCF signing/verification engine — formal model

A shallow embedding of the AVCF engine (`avcf/domain/crypto.py`,
`avcf/app/services.py`, `avcf/infra/container.py`) in Lean 4, together with
theorems settling the specification claims about it.

Modelling conventions:
* The external GnuPG backend is modelled symbolically: a keyring is a list of
  keys (key id, fingerprint, whether the secret part is present); a detached
  signature is a symbolic value recording the signer's fingerprint and the
  signed metadata (standing for the canonical JSON serialization, which is a
  deterministic function of the metadata value); armored key text is a
  symbolic value that is either a well-formed public key with a fingerprint
  or malformed text.
* External-world effects (ffprobe output, HTTPS fetch outcome, the SHA-256
  digest of the file on disk, export/embed success) are passed in explicitly
  as "world" records, so every function is a pure function of its inputs.
* Python's `raise` is modelled with `Except`; Python string formatting with
  explicit concatenation, keeping the exact message text of the source.
* Timestamps (`datetime.utcnow()`) are an abstract `Nat` supplied by the
  world; the `verification_time` field of results, which no claim mentions,
  is omitted.
-/

/-- Python's substring test `needle in hay` on lists of characters. -/
def pyInList (needle hay : List Char) : Bool :=
  match hay with
  | [] => needle.isEmpty
  | _ :: t => needle.isPrefixOf hay || pyInList needle t

/-- Python's substring test `needle in hay` on strings. -/
def pyIn (needle hay : String) : Bool :=
  pyInList needle.toList hay.toList

/-- `pyInList` decides contiguous-sublist (infix) containment. -/
theorem pyInList_correct (needle hay : List Char) :
    pyInList needle hay = true ↔ needle <:+: hay := by
  induction hay with
  | nil =>
    simp [pyInList, List.isEmpty_iff]
  | cons a t ih =>
    simp [pyInList, List.infix_cons_iff, ih, List.isPrefixOf_iff_prefix]

/-- `pyIn` decides substring containment of the underlying character lists. -/
theorem pyIn_correct (needle hay : String) :
    pyIn needle hay = true ↔ needle.toList <:+: hay.toList :=
  pyInList_correct needle.toList hay.toList

/-- Every string is a substring of itself. -/
theorem pyIn_refl (s : String) : pyIn s s = true :=
  (pyIn_correct s s).mpr (List.infix_refl _)

/-! ## Data model (`avcf/domain/models.py`) -/

/-- `SignatureStatus` (models.py): the five verification verdicts. -/
inductive SignatureStatus where
  | VALID
  | INVALID
  | MISSING
  | KEY_NOT_FOUND
  | ERROR
deriving DecidableEq, Repr

/-- Symbolic armored OpenPGP key text: either a well-formed public key with
a given fingerprint, or malformed text (whose import produces the given
stderr text). -/
inductive Armored where
  | pubkey (fpr : String)
  | malformed (err : String)
deriving DecidableEq, Repr

/-- `AVCFMetadata` (models.py). `embedded_pubkey` is armored key text, so it
is modelled with the symbolic `Armored` type; `pubkey_url` is kept as an
opaque optional string; the timestamp is an abstract instant. -/
structure AVCFMetadata where
  video_hash : String
  author_name : String
  author_email : Option String
  author_organization : Option String
  pubkey_fingerprint : String
  pubkey_url : Option String
  embedded_pubkey : Option Armored
  timestamp : Nat
  tool_name : String
  tool_version : String
  tags : Option (List String)
  notes : Option String
deriving DecidableEq, Repr

/-- A symbolic detached signature: `sig f m` is a signature over the
canonical serialization of metadata `m` made by the key whose fingerprint is
`f`; `garbage` is any byte string that is not a signature produced by the
backend. -/
inductive Signature where
  | sig (signerFpr : String) (signed : AVCFMetadata)
  | garbage (s : String)
deriving DecidableEq, Repr

/-- `SignedAVCFBlock` (models.py): metadata plus detached signature. -/
structure SignedAVCFBlock where
  metadata : AVCFMetadata
  signature : Signature
deriving DecidableEq, Repr

/-- `VerificationResult` (models.py), without the `verification_time`
wall-clock field. -/
structure VerificationResult where
  status : SignatureStatus
  metadata : Option AVCFMetadata
  error_message : Option String
deriving DecidableEq, Repr

/-- Engine error taxonomy (`avcf/infra/exceptions.py`), carrying the
exception message. -/
inductive AVCFErr where
  | keyError (msg : String)
  | cryptoError (msg : String)
  | containerError (msg : String)
  | validationError (msg : String)
deriving DecidableEq, Repr

/-! ## Symbolic GnuPG backend -/

/-- One key in the GnuPG keyring: key id, fingerprint, and whether the
secret (private) part is available for signing. -/
structure GpgKey where
  keyid : String
  fingerprint : String
  hasSecret : Bool
deriving DecidableEq, Repr

/-- The state of a `CryptoService`: its keyring, plus a flag modelling an
unexpected backend failure during `gpg.verify_data` (`some msg` means the
backend raises an exception with message `msg`). -/
structure CryptoState where
  keys : List GpgKey
  verifyFailure : Option String
deriving DecidableEq, Repr

/-- The fingerprint-matching loop used by `CryptoService.verify_signature`
(crypto.py lines 176-181) and `VerificationService._has_key`
(services.py lines 207-211): Python substring containment
`fingerprint in key['fingerprint']` over the listed keys. -/
def fprMatch (keys : List GpgKey) (fingerprint : String) : Bool :=
  keys.any (fun k => pyIn fingerprint k.fingerprint)

/-- `VerificationService._has_key` (services.py). -/
def has_key (st : CryptoState) (fingerprint : String) : Bool :=
  fprMatch st.keys fingerprint

/-- Ideal backend `gpg.verify_data`: a detached signature verifies against
given data exactly when it was produced over byte-identical data by a key
whose public part is present in the keyring. -/
def gpgVerifyData (keys : List GpgKey) (s : Signature) (m : AVCFMetadata) : Bool :=
  match s with
  | .sig f d => decide (d = m) && keys.any (fun k => decide (k.fingerprint = f))
  | .garbage _ => false

/-- Ideal backend key lookup for signing: `gpg.sign(..., keyid=key_id)`
succeeds when some key with its secret part matches the identifier. -/
def gpgFindSecret (keys : List GpgKey) (key_id : String) : Option GpgKey :=
  keys.find? (fun k => k.hasSecret && (decide (k.keyid = key_id) || decide (k.fingerprint = key_id)))

/-- Ideal backend `gpg.sign` producing a detached signature over the
canonical serialization of `m`. -/
def gpgSign (keys : List GpgKey) (m : AVCFMetadata) (key_id : String) : Option Signature :=
  (gpgFindSecret keys key_id).map (fun k => .sig k.fingerprint m)

/-! ## Crypto engine (`avcf/domain/crypto.py`) -/

/-- `CryptoService.import_key` (crypto.py lines 143-159): import armored key
text; raise `AVCFCryptoError` when no fingerprints result. On success the
keyring gains the key. The error value is the exception's message. -/
def import_key (st : CryptoState) (a : Armored) : Except String CryptoState :=
  match a with
  | .pubkey f =>
    .ok { st with keys := st.keys ++ [⟨f, f, false⟩] }
  | .malformed e => .error ("Failed to import key: " ++ e)

/-- `CryptoService.create_metadata` (crypto.py lines 66-108): the SHA-256
digest of the file and the current UTC time are supplied by the world. -/
def create_metadata (fileHash : String) (now : Nat) (author_name : String)
    (pubkey_fingerprint : String) (author_email author_organization pubkey_url : Option String)
    (embedded_pubkey : Option Armored) (tags : Option (List String))
    (notes : Option String) : AVCFMetadata :=
  { video_hash := fileHash
    author_name := author_name
    author_email := author_email
    author_organization := author_organization
    pubkey_fingerprint := pubkey_fingerprint
    pubkey_url := pubkey_url
    embedded_pubkey := embedded_pubkey
    timestamp := now
    tool_name := "avcf-sign"
    tool_version := "0.1.0"
    tags := tags
    notes := notes }

/-- `CryptoService.sign_metadata` (crypto.py lines 110-141): serialize the
metadata, request a detached signature for `key_id`; raise `AVCFCryptoError`
when the backend returns no signature. -/
def sign_metadata (st : CryptoState) (m : AVCFMetadata) (key_id : String) :
    Except String SignedAVCFBlock :=
  match gpgSign st.keys m key_id with
  | some s => .ok ⟨m, s⟩
  | none => .error "Failed to sign metadata"

/-- The `try`-block of `CryptoService.verify_signature` (crypto.py lines
202-233): verify the detached signature over the serialized metadata; a
backend exception yields ERROR with the underlying message. -/
def verifyCore (st : CryptoState) (blk : SignedAVCFBlock) :
    CryptoState × VerificationResult :=
  match st.verifyFailure with
  | some e =>
    (st, ⟨.ERROR, some blk.metadata, some ("Error verifying signature: " ++ e)⟩)
  | none =>
    if gpgVerifyData st.keys blk.signature blk.metadata then
      (st, ⟨.VALID, some blk.metadata, none⟩)
    else
      (st, ⟨.INVALID, some blk.metadata, some "Invalid signature"⟩)

/-- `CryptoService.verify_signature` (crypto.py lines 161-233): look for a
keyring key whose fingerprint contains the metadata's fingerprint; else try
to import the embedded public key; if neither yields a key return
KEY_NOT_FOUND; otherwise verify the detached signature. Returns the
(possibly grown) keyring state together with the result. -/
def verify_signature (st : CryptoState) (blk : SignedAVCFBlock) :
    CryptoState × VerificationResult :=
  let m := blk.metadata
  if fprMatch st.keys m.pubkey_fingerprint then
    verifyCore st blk
  else
    match m.embedded_pubkey with
    | some a =>
      match import_key st a with
      | .ok st' => verifyCore st' blk
      | .error _ =>
        (st, ⟨.KEY_NOT_FOUND, some m, some "Failed to import embedded public key"⟩)
    | none =>
      (st, ⟨.KEY_NOT_FOUND, some m, some "Public key not found and not embedded"⟩)

/-- `CryptoService.verify_video_hash` (crypto.py lines 235-247), with the
recomputed digest of the file supplied by the world. -/
def verify_video_hash (recomputedHash : String) (m : AVCFMetadata) : Bool :=
  decide (recomputedHash = m.video_hash)

/-! ## Container adapters (`avcf/infra/container.py`) -/

/-- The adapter variants produced by `ContainerFactory.create_adapter`:
`MP4Adapter`, `MKVAdapter`, `WebMAdapter`. -/
inductive Adapter where
  | mp4
  | mkv
  | webm
deriving DecidableEq, Repr

/-- The metadata tag value found in a container, as seen after the probe:
either a JSON payload that parses and validates into a signed block, JSON
that fails to parse, or JSON that parses but fails model validation. -/
inductive TagVal where
  | block (b : SignedAVCFBlock)
  | badJson (err : String)
  | badSchema (err : String)
deriving DecidableEq, Repr

/-- The output of `ffmpeg.probe`: the tag map of each stream, in stream
order, and the format-level (top-level) tag map. -/
structure ProbeData where
  streamTags : List (List (String × TagVal))
  formatTags : List (String × TagVal)
deriving DecidableEq, Repr

/-- Dictionary lookup `tags['key']` guarded by `'key' in tags`. -/
def lookupTag (tags : List (String × TagVal)) (key : String) : Option TagVal :=
  (tags.find? (fun p => decide (p.1 = key))).map (fun p => p.2)

/-- The stream loop of `MP4Adapter.extract_metadata` (container.py lines
117-122): the first stream whose tag map holds the key wins. -/
def findStreamTag (streams : List (List (String × TagVal))) (key : String) :
    Option TagVal :=
  match streams with
  | [] => none
  | s :: rest =>
    match lookupTag s key with
    | some v => some v
    | none => findStreamTag rest key

/-- `json.loads` + `SignedAVCFBlock.model_validate` on a hit, with the
exception handlers shared by both adapters (container.py lines 134-137 and
201-204). -/
def decodeTag (v : TagVal) : Except AVCFErr (Option SignedAVCFBlock) :=
  match v with
  | .block b => .ok (some b)
  | .badJson e => .error (.containerError ("Failed to parse metadata JSON: " ++ e))
  | .badSchema e => .error (.containerError ("Failed to extract metadata: " ++ e))

/-- `MP4Adapter.extract_metadata` (container.py lines 99-137): on probe
failure raise ContainerError; else search the per-stream tag maps for
`avcf_auth`, then the format-level tags; decode a hit; none when absent. -/
def mp4Extract (probe : Except String ProbeData) :
    Except AVCFErr (Option SignedAVCFBlock) :=
  match probe with
  | .error e =>
    .error (.containerError ("Failed to extract metadata from MP4 file: " ++ e))
  | .ok d =>
    match findStreamTag d.streamTags "avcf_auth" with
    | some v => decodeTag v
    | none =>
      match lookupTag d.formatTags "avcf_auth" with
      | some v => decodeTag v
      | none => .ok none

/-- `MKVAdapter.extract_metadata` (container.py lines 174-204): on probe
failure raise ContainerError; else look for `AVCF_AUTH` in the format-level
tags only; decode a hit; none when absent. -/
def mkvExtract (probe : Except String ProbeData) :
    Except AVCFErr (Option SignedAVCFBlock) :=
  match probe with
  | .error e =>
    .error (.containerError ("Failed to extract metadata from MKV file: " ++ e))
  | .ok d =>
    match lookupTag d.formatTags "AVCF_AUTH" with
    | some v => decodeTag v
    | none => .ok none

/-- `extract_metadata` dispatched over the adapter variant;
`WebMAdapter.extract_metadata` (container.py lines 226-241) delegates to the
MKV adapter. -/
def adapterExtract (a : Adapter) (probe : Except String ProbeData) :
    Except AVCFErr (Option SignedAVCFBlock) :=
  match a with
  | .mp4 => mp4Extract probe
  | .mkv => mkvExtract probe
  | .webm => mkvExtract probe

/-- The metadata tag key written and searched by each adapter variant
(`avcf_auth` for MP4; `AVCF_AUTH` for Matroska, to which WebM delegates). -/
def tagKey (a : Adapter) : String :=
  match a with
  | .mp4 => "avcf_auth"
  | .mkv => "AVCF_AUTH"
  | .webm => "AVCF_AUTH"

/-- The ffmpeg failure message of `embed_metadata` per adapter variant
(WebM delegates to the MKV adapter, so it reports the MKV message). -/
def embedFailMsg (a : Adapter) (e : String) : String :=
  match a with
  | .mp4 => "Failed to embed metadata in MP4 file: " ++ e
  | .mkv => "Failed to embed metadata in MKV file: " ++ e
  | .webm => "Failed to embed metadata in MKV file: " ++ e

/-- `embed_metadata` dispatched over the adapter variant: on ffmpeg success
(`embedErr = none`) the block is written under the adapter's tag key; on
ffmpeg failure raise ContainerError. -/
def adapterEmbed (a : Adapter) (embedErr : Option String) (blk : SignedAVCFBlock) :
    Except AVCFErr (String × SignedAVCFBlock) :=
  match embedErr with
  | some e => .error (.containerError (embedFailMsg a e))
  | none => .ok (tagKey a, blk)

/-- Python's `str.lower()` on one ASCII character. -/
def charLower (c : Char) : Char :=
  if 65 ≤ c.toNat ∧ c.toNat ≤ 90 then Char.ofNat (c.toNat + 32) else c

/-- Python's `str.lower()` (over the ASCII range, which covers the
extensions the factory compares against). -/
def pyLower (s : String) : String :=
  ⟨s.toList.map charLower⟩

/-- `ContainerFactory.create_adapter` (container.py lines 247-270), as a
function of the path's extension (`file_path.suffix`). -/
def create_adapter (suffix : String) : Except AVCFErr Adapter :=
  let s := pyLower suffix
  if s = ".mp4" then .ok .mp4
  else if s = ".mkv" then .ok .mkv
  else if s = ".webm" then .ok .webm
  else .error (.containerError ("Unsupported container format: " ++ s))

/-! ## Application services (`avcf/app/services.py`) -/

/-- The external-world outcomes consumed by one `verify_video` run: the
ffprobe outcome for the file, the HTTPS GET outcome for the metadata's key
URL (error message, or the response body as armored text), and the SHA-256
digest of the file as recomputed during the hash check. -/
structure VerifyWorld where
  probe : Except String ProbeData
  fetch : Except String Armored
  fileHash : String
deriving Repr

/-- `VerificationService._fetch_key` (services.py lines 213-234): HTTPS GET
the URL, then import the body; each failure is re-raised as `AVCFKeyError`
with the shown message. On success the keyring has gained the fetched
key. -/
def fetch_key (st : CryptoState) (fetch : Except String Armored) :
    Except String CryptoState :=
  match fetch with
  | .error e => .error ("Failed to fetch key from URL: " ++ e)
  | .ok a =>
    match import_key st a with
    | .ok st' => .ok st'
    | .error e => .error ("Failed to import key from URL: " ++ e)

/-- The key-resolution branch of `VerificationService.verify_video`
(services.py lines 160-181): entered only when fetching is enabled, the
metadata has a key URL, and no keyring fingerprint contains the metadata's
fingerprint. A `.error r` outcome is a terminal verification result; `.ok`
carries the (possibly grown) keyring state. -/
def keyResolution (st : CryptoState) (w : VerifyWorld) (fetch_keys : Bool)
    (m : AVCFMetadata) : Except VerificationResult CryptoState :=
  if fetch_keys && m.pubkey_url.isSome && !(fprMatch st.keys m.pubkey_fingerprint) then
    match fetch_key st w.fetch with
    | .ok st' => .ok st'
    | .error e =>
      match m.embedded_pubkey with
      | some a =>
        match import_key st a with
        | .ok st' => .ok st'
        | .error _ =>
          .error ⟨.KEY_NOT_FOUND, some m,
            some ("Failed to fetch key from URL and failed to import embedded key: " ++ e)⟩
      | none =>
        .error ⟨.KEY_NOT_FOUND, some m,
          some ("Failed to fetch key from URL and no embedded key available: " ++ e)⟩
  else
    .ok st

/-- The final stage of `VerificationService.verify_video` (services.py lines
182-195): run `verify_signature`; on a VALID verdict recompute and compare
the content hash, downgrading to INVALID on mismatch; otherwise propagate
the signature verdict. -/
def sigAndHash (st : CryptoState) (blk : SignedAVCFBlock) (w : VerifyWorld) :
    VerificationResult :=
  let sig_result := (verify_signature st blk).2
  if sig_result.status = .VALID then
    if verify_video_hash w.fileHash blk.metadata then
      sig_result
    else
      ⟨.INVALID, some blk.metadata,
        some "Video hash does not match the hash in the metadata"⟩
  else
    sig_result

/-- `VerificationService.verify_video` (services.py lines 134-195): select
the adapter from the file's extension, extract the signed block (terminal
MISSING result when none), run key resolution, then signature verification
and the hash check. -/
def verify_video (st : CryptoState) (suffix : String) (w : VerifyWorld)
    (fetch_keys : Bool) : Except AVCFErr VerificationResult :=
  match create_adapter suffix with
  | .error e => .error e
  | .ok adapter =>
    match adapterExtract adapter w.probe with
    | .error e => .error e
    | .ok none =>
      .ok ⟨.MISSING, none, some "No AVCF metadata found in the video file"⟩
    | .ok (some blk) =>
      match keyResolution st w fetch_keys blk.metadata with
      | .error r => .ok r
      | .ok st' => .ok (sigAndHash st' blk w)

/-- The external-world outcomes consumed by one `sign_video` run: the
SHA-256 digest of the input file, the current UTC time, whether
`gpg.export_keys` returns a non-empty export, and the ffmpeg embed outcome
(`some stderr` meaning failure). -/
structure SignWorld where
  inputHash : String
  now : Nat
  exportOk : Bool
  embedErr : Option String
deriving DecidableEq, Repr

/-- `SigningService.sign_video` (services.py lines 32-118): resolve the key
identifier against the listed keys by substring containment on key id or
fingerprint; optionally export and attach the public key; build metadata;
sign; select the adapter from the INPUT path's extension; embed; return.
The success value records the adapter used, the tag key written, and the
embedded block. -/
def sign_video (st : CryptoState) (w : SignWorld) (input_suffix output_suffix : String)
    (key_id author_name : String)
    (author_email author_organization pubkey_url : Option String)
    (embed_pubkey : Bool) (tags : Option (List String)) (notes : Option String) :
    Except AVCFErr (Adapter × String × SignedAVCFBlock) :=
  match st.keys.find? (fun k => pyIn key_id k.keyid || pyIn key_id k.fingerprint) with
  | none => .error (.keyError ("Private key not found: " ++ key_id))
  | some k =>
    let embedded : Except AVCFErr (Option Armored) :=
      if embed_pubkey then
        if w.exportOk then .ok (some (.pubkey k.fingerprint))
        else .error (.keyError ("Failed to export public key: " ++ k.fingerprint))
      else .ok none
    match embedded with
    | .error e => .error e
    | .ok emb =>
      let m := create_metadata w.inputHash w.now author_name k.fingerprint
        author_email author_organization pubkey_url emb tags notes
      match sign_metadata st m key_id with
      | .error e => .error (.cryptoError e)
      | .ok blk =>
        match create_adapter input_suffix with
        | .error e => .error e
        | .ok adapter =>
          match adapterEmbed adapter w.embedErr blk with
          | .error e => .error e
          | .ok (tk, b) => .ok (adapter, tk, b)

/-! ## Claims -/

/-- C6: adapter selection is a function of the file extension alone
(case-insensitively): `.mp4` yields the MP4 adapter, `.mkv` the Matroska
adapter, `.webm` the WebM adapter (which is the Matroska adapter by
delegation — its extract and embed behaviour coincide with the MKV
adapter's), and every other extension fails with a ContainerError naming an
unsupported container format. -/
theorem format_dispatch (suffix : String) :
    (pyLower suffix = ".mp4" → create_adapter suffix = .ok .mp4)
    ∧ (pyLower suffix = ".mkv" → create_adapter suffix = .ok .mkv)
    ∧ (pyLower suffix = ".webm" → create_adapter suffix = .ok .webm)
    ∧ (pyLower suffix ≠ ".mp4" → pyLower suffix ≠ ".mkv" → pyLower suffix ≠ ".webm" →
        create_adapter suffix =
          .error (.containerError ("Unsupported container format: " ++ pyLower suffix)))
    ∧ (∀ p, adapterExtract .webm p = adapterExtract .mkv p)
    ∧ (∀ o b, adapterEmbed .webm o b = adapterEmbed .mkv o b) := by
  refine ⟨?_, ?_, ?_, ?_, ?_, ?_⟩
  · intro h; simp [create_adapter, h]
  · intro h; simp [create_adapter, h]
  · intro h; simp [create_adapter, h]
  · intro h1 h2 h3; simp [create_adapter, h1, h2, h3]
  · intro p; rfl
  · intro o b; cases o <;> rfl

/-- Witness for C6: `.MP4` (case-folded) resolves to the MP4 adapter, `.mkv`
and `.webm` to the Matroska family, and `.avi` is rejected. -/
theorem format_dispatch_witness :
    create_adapter ".MP4" = .ok .mp4
    ∧ create_adapter ".mkv" = .ok .mkv
    ∧ create_adapter ".webm" = .ok .webm
    ∧ create_adapter ".avi" =
        .error (.containerError "Unsupported container format: .avi") := by
  refine ⟨(format_dispatch ".MP4").1 (by rfl),
    (format_dispatch ".mkv").2.1 (by rfl),
    (format_dispatch ".webm").2.2.1 (by rfl),
    (format_dispatch ".avi").2.2.2.1 (by decide) (by decide) (by decide)⟩

/-- C3: verifying a file in a supported format that carries no AVCF tag
yields the MISSING result with an explanatory message, as an ordinary
return value (`Except.ok`), never a raised error. -/
theorem missing_tag_safety (st : CryptoState) (suffix : String) (w : VerifyWorld)
    (fetch_keys : Bool) (adapter : Adapter)
    (hA : create_adapter suffix = .ok adapter)
    (hX : adapterExtract adapter w.probe = .ok none) :
    verify_video st suffix w fetch_keys =
      .ok ⟨.MISSING, none, some "No AVCF metadata found in the video file"⟩ := by
  simp [verify_video, hA, hX]

/-- Witness for C3: a tag-less MP4 probe verifies to MISSING. -/
theorem missing_tag_safety_witness :
    verify_video ⟨[], none⟩ ".mp4" ⟨.ok ⟨[], []⟩, .error "net down", "h"⟩ true =
      .ok ⟨.MISSING, none, some "No AVCF metadata found in the video file"⟩ :=
  missing_tag_safety _ _ _ _ .mp4 (by rfl) (by rfl)

/-- C2: whenever the signature check returns VALID, `verify_video`
recomputes the file's content hash and compares it with the metadata's
claimed hash; on mismatch the final result is INVALID with the explicit
"hash does not match" message, and on match it is exactly the VALID
signature result. -/
theorem hash_check_override (st st' : CryptoState) (suffix : String) (w : VerifyWorld)
    (fetch_keys : Bool) (adapter : Adapter) (blk : SignedAVCFBlock)
    (hA : create_adapter suffix = .ok adapter)
    (hX : adapterExtract adapter w.probe = .ok (some blk))
    (hR : keyResolution st w fetch_keys blk.metadata = .ok st')
    (hV : (verify_signature st' blk).2.status = .VALID) :
    verify_video st suffix w fetch_keys =
      .ok (if verify_video_hash w.fileHash blk.metadata
           then (verify_signature st' blk).2
           else ⟨.INVALID, some blk.metadata,
             some "Video hash does not match the hash in the metadata"⟩) := by
  simp [verify_video, hA, hX, hR, sigAndHash, hV]

/-- Metadata for the C2 witness: claimed content hash `"hash1"`. -/
def c2meta : AVCFMetadata :=
  ⟨"hash1", "a", none, none, "AAAA", none, none, 0, "avcf-sign", "0.1.0", none, none⟩

/-- Block for the C2 witness, validly signed by the key `AAAA`. -/
def c2blk : SignedAVCFBlock := ⟨c2meta, .sig "AAAA" c2meta⟩

/-- Keyring for the C2 witness: the signer's public key is present. -/
def c2state : CryptoState := ⟨[⟨"AA", "AAAA", false⟩], none⟩

/-- World for the C2 witness: the probe finds the block in the format tags,
but the file on disk hashes to `"otherhash"`, not the claimed `"hash1"`. -/
def c2world : VerifyWorld :=
  ⟨.ok ⟨[], [("avcf_auth", .block c2blk)]⟩, .error "x", "otherhash"⟩

/-- Witness for C2: a VALID signature over metadata whose claimed hash no
longer matches the file is downgraded to INVALID with the explicit
message. -/
theorem hash_check_override_witness :
    verify_video c2state ".mp4" c2world false =
      .ok ⟨.INVALID, some c2meta,
        some "Video hash does not match the hash in the metadata"⟩ := by
  have h := hash_check_override c2state c2state ".mp4" c2world false .mp4 c2blk
    (by rfl) (by rfl) (by rfl) (by rfl)
  rw [h]; rfl

/-- C4: with remote fetching enabled, a key URL present, the fingerprint
absent from the local keyring, and the fetch (or its import) failing: when
an embedded key exists it is imported and, on success, verification
proceeds to the signature stage; only when that import also fails does the
engine return KEY_NOT_FOUND, with a message combining both failure causes;
with no embedded key it returns KEY_NOT_FOUND citing the fetch failure. -/
theorem fallback_ordering (st : CryptoState) (suffix : String) (w : VerifyWorld)
    (adapter : Adapter) (blk : SignedAVCFBlock) (e : String)
    (hA : create_adapter suffix = .ok adapter)
    (hX : adapterExtract adapter w.probe = .ok (some blk))
    (hUrl : blk.metadata.pubkey_url.isSome = true)
    (hNoKey : fprMatch st.keys blk.metadata.pubkey_fingerprint = false)
    (hFetch : fetch_key st w.fetch = .error e) :
    (∀ a st', blk.metadata.embedded_pubkey = some a → import_key st a = .ok st' →
        verify_video st suffix w true = .ok (sigAndHash st' blk w))
    ∧ (∀ a e', blk.metadata.embedded_pubkey = some a → import_key st a = .error e' →
        verify_video st suffix w true =
          .ok ⟨.KEY_NOT_FOUND, some blk.metadata,
            some ("Failed to fetch key from URL and failed to import embedded key: " ++ e)⟩)
    ∧ (blk.metadata.embedded_pubkey = none →
        verify_video st suffix w true =
          .ok ⟨.KEY_NOT_FOUND, some blk.metadata,
            some ("Failed to fetch key from URL and no embedded key available: " ++ e)⟩) := by
  refine ⟨?_, ?_, ?_⟩
  · intro a st' hEmb hImp
    simp [verify_video, hA, hX, keyResolution, hUrl, hNoKey, hFetch, hEmb, hImp]
  · intro a e' hEmb hImp
    simp [verify_video, hA, hX, keyResolution, hUrl, hNoKey, hFetch, hEmb, hImp]
  · intro hEmb
    simp [verify_video, hA, hX, keyResolution, hUrl, hNoKey, hFetch, hEmb]

/-- Metadata for the C4 witness: key URL present, fingerprint unknown to
the empty keyring, and a malformed embedded key. -/
def c4meta : AVCFMetadata :=
  ⟨"h", "a", none, none, "AAAA", some "https://k.example/key.asc",
    some (.malformed "bad"), 0, "avcf-sign", "0.1.0", none, none⟩

/-- Block for the C4 witness. -/
def c4blk : SignedAVCFBlock := ⟨c4meta, .sig "AAAA" c4meta⟩

/-- World for the C4 witness: probe finds the block; the HTTPS fetch fails
with `boom`. -/
def c4world : VerifyWorld :=
  ⟨.ok ⟨[], [("avcf_auth", .block c4blk)]⟩, .error "boom", "h"⟩

/-- Witness for C4: fetch fails, the embedded key is attempted and also
fails, and the result is KEY_NOT_FOUND with the combined message. -/
theorem fallback_ordering_witness :
    verify_video ⟨[], none⟩ ".mp4" c4world true =
      .ok ⟨.KEY_NOT_FOUND, some c4meta,
        some ("Failed to fetch key from URL and failed to import embedded key: " ++
          "Failed to fetch key from URL: boom")⟩ :=
  (fallback_ordering ⟨[], none⟩ ".mp4" c4world .mp4 c4blk
      "Failed to fetch key from URL: boom"
      (by rfl) (by rfl) (by rfl) (by rfl) (by rfl)).2.1
    (.malformed "bad") "Failed to import key: bad" (by rfl) (by rfl)

/-- C5: `verify_signature` first checks the local keyring for a key whose
fingerprint matches the metadata's; if none matches and an embedded public
key is present it attempts to import it; if neither path yields a key it
returns KEY_NOT_FOUND with an explanatory message; otherwise it verifies the
detached signature over the serialized metadata and returns VALID or INVALID
accordingly, and an unexpected backend failure during verification returns
ERROR with the underlying message. -/
theorem verify_signature_procedure (st : CryptoState) (blk : SignedAVCFBlock) :
    (fprMatch st.keys blk.metadata.pubkey_fingerprint = false →
      blk.metadata.embedded_pubkey = none →
      (verify_signature st blk).2 =
        ⟨.KEY_NOT_FOUND, some blk.metadata, some "Public key not found and not embedded"⟩)
    ∧ (∀ a e, fprMatch st.keys blk.metadata.pubkey_fingerprint = false →
        blk.metadata.embedded_pubkey = some a → import_key st a = .error e →
        (verify_signature st blk).2 =
          ⟨.KEY_NOT_FOUND, some blk.metadata, some "Failed to import embedded public key"⟩)
    ∧ (fprMatch st.keys blk.metadata.pubkey_fingerprint = true →
        st.verifyFailure = none →
        (verify_signature st blk).2 =
          (if gpgVerifyData st.keys blk.signature blk.metadata
           then ⟨.VALID, some blk.metadata, none⟩
           else ⟨.INVALID, some blk.metadata, some "Invalid signature"⟩))
    ∧ (∀ a st', fprMatch st.keys blk.metadata.pubkey_fingerprint = false →
        blk.metadata.embedded_pubkey = some a → import_key st a = .ok st' →
        st.verifyFailure = none →
        (verify_signature st blk).2 =
          (if gpgVerifyData st'.keys blk.signature blk.metadata
           then ⟨.VALID, some blk.metadata, none⟩
           else ⟨.INVALID, some blk.metadata, some "Invalid signature"⟩))
    ∧ (∀ e, fprMatch st.keys blk.metadata.pubkey_fingerprint = true →
        st.verifyFailure = some e →
        (verify_signature st blk).2 =
          ⟨.ERROR, some blk.metadata, some ("Error verifying signature: " ++ e)⟩) := by
  refine ⟨?_, ?_, ?_, ?_, ?_⟩
  · intro hF hE
    simp [verify_signature, hF, hE]
  · intro a e hF hE hI
    simp [verify_signature, hF, hE, hI]
  · intro hF hV
    simp [verify_signature, hF, verifyCore, hV]
    split <;> rfl
  · intro a st' hF hE hI hV
    have hV' : st'.verifyFailure = none := by
      cases a with
      | pubkey f =>
        simp [import_key] at hI
        rw [← hI]; exact hV
      | malformed e => simp [import_key] at hI
    simp [verify_signature, hF, hE, hI, verifyCore, hV']
    split <;> rfl
  · intro e hF hV
    simp [verify_signature, hF, verifyCore, hV]

/-- Witness for C5: an empty keyring and no embedded key yield KEY_NOT_FOUND
with the explanatory message. -/
theorem verify_signature_procedure_witness :
    (verify_signature ⟨[], none⟩ c2blk).2 =
      ⟨.KEY_NOT_FOUND, some c2meta, some "Public key not found and not embedded"⟩ :=
  (verify_signature_procedure ⟨[], none⟩ c2blk).1 (by rfl) (by rfl)

/-- C9: fingerprint matching is substring containment — `_has_key` (the
orchestrator's key-resolution guard) and the local-keyring check of
`verify_signature` treat the metadata's fingerprint `f` as present exactly
when `f` occurs as a contiguous substring of some keyring key's fingerprint;
in particular, when such a substring match exists, `verify_signature` never
returns KEY_NOT_FOUND. -/
theorem fingerprint_substring_matching (keys : List GpgKey) (vf : Option String)
    (f : String) (blk : SignedAVCFBlock) :
    (has_key ⟨keys, vf⟩ f = true ↔
      ∃ k ∈ keys, f.toList <:+: k.fingerprint.toList)
    ∧ (fprMatch keys f = true ↔
      ∃ k ∈ keys, f.toList <:+: k.fingerprint.toList)
    ∧ (fprMatch keys blk.metadata.pubkey_fingerprint = true →
        (verify_signature ⟨keys, vf⟩ blk).2.status ≠ .KEY_NOT_FOUND) := by
  refine ⟨?_, ?_, ?_⟩
  · simp [has_key, fprMatch, List.any_eq_true, pyIn_correct]
  · simp [fprMatch, List.any_eq_true, pyIn_correct]
  · intro h
    simp only [verify_signature, h, if_true, verifyCore]
    cases vf <;> simp <;> split <;> simp

/-- Witness for C9: the fragment `"BCD"` — neither equal to nor a suffix of
the keyring fingerprint `"ABCDEF"` — is treated as already present. -/
theorem fingerprint_substring_matching_witness :
    has_key ⟨[⟨"k1", "ABCDEF", false⟩], none⟩ "BCD" = true
    ∧ ("BCD" : String) ≠ "ABCDEF" := by
  refine ⟨?_, by decide⟩
  exact (fingerprint_substring_matching [⟨"k1", "ABCDEF", false⟩] none "BCD"
    c2blk).1.mpr ⟨⟨"k1", "ABCDEF", false⟩, by simp, ⟨['A'], ['E', 'F'], by decide⟩⟩

/-- Metadata for C10: the claimed fingerprint is `AAAA`, but the embedded
public key's fingerprint is `BBBB`. -/
def c10meta : AVCFMetadata :=
  ⟨"h", "a", none, none, "AAAA", none, some (.pubkey "BBBB"), 0,
    "avcf-sign", "0.1.0", none, none⟩

/-- Block for C10, signed by the key `BBBB` that is embedded in the
metadata. -/
def c10blk : SignedAVCFBlock := ⟨c10meta, .sig "BBBB" c10meta⟩

/-- C10: when the claimed fingerprint is absent from the (empty) local
keyring but the embedded key imports successfully, `verify_signature`
proceeds without ever comparing the imported key's fingerprint (`BBBB`)
against the claimed `pubkey_fingerprint` (`AAAA`), and returns VALID. -/
theorem no_fingerprint_binding_on_import :
    (verify_signature ⟨[], none⟩ c10blk).2 = ⟨.VALID, some c10meta, none⟩
    ∧ c10meta.pubkey_fingerprint = "AAAA"
    ∧ c10meta.embedded_pubkey = some (.pubkey "BBBB")
    ∧ ("BBBB" : String) ≠ "AAAA" := by
  exact ⟨by decide, rfl, rfl, by decide⟩

/-- Metadata for the C1 counterexample: `pubkey_fingerprint` is `"ZZ"`,
unrelated to the signing key pair, and no embedded key. -/
def c1badMeta : AVCFMetadata :=
  ⟨"h", "Jane", none, none, "ZZ", none, none, 0, "avcf-sign", "0.1.0", none, none⟩

/-- Signer keyring for C1: the key pair K with key id `"AA"` and fingerprint
`"AAAA"`, secret part present. -/
def c1signer : CryptoState := ⟨[⟨"AA", "AAAA", true⟩], none⟩

/-- Verifier keyring for C1: the public key P of that pair (fingerprint
`"AAAA"`) is available. -/
def c1verifier : CryptoState := ⟨[⟨"AA", "AAAA", false⟩], none⟩

/-- Counterexample to C1 as stated: for the metadata record `c1badMeta` and
the key pair with fingerprint `"AAAA"`, signing succeeds and P is available
to the verifier's keyring, yet `verify_signature` returns KEY_NOT_FOUND —
not VALID — because key lookup goes through the metadata's own
`pubkey_fingerprint` (`"ZZ"`), which matches nothing. -/
theorem round_trip_counterexample :
    (sign_metadata c1signer c1badMeta "AA").map
      (fun blk => (verify_signature c1verifier blk).2.status) = .ok .KEY_NOT_FOUND
    ∧ SignatureStatus.KEY_NOT_FOUND ≠ .VALID := by
  exact ⟨by rfl, by decide⟩

/-- C1 (amended): for every metadata record M whose `pubkey_fingerprint` is
the fingerprint of the signing key pair (priv K, pub P), verifying the block
produced by signing M with K returns VALID whenever P is available to the
verifier's keyring (and the backend raises no unexpected failure). -/
theorem round_trip (M : AVCFMetadata) (signer verifier : CryptoState)
    (key_id : String) (k p : GpgKey) (blk : SignedAVCFBlock)
    (hk : gpgFindSecret signer.keys key_id = some k)
    (hsign : sign_metadata signer M key_id = .ok blk)
    (hfpr : M.pubkey_fingerprint = k.fingerprint)
    (hp : p ∈ verifier.keys) (hpf : p.fingerprint = k.fingerprint)
    (hnf : verifier.verifyFailure = none) :
    (verify_signature verifier blk).2 = ⟨.VALID, some M, none⟩ := by
  have hblk : blk = ⟨M, .sig k.fingerprint M⟩ := by
    simp [sign_metadata, gpgSign, hk] at hsign
    exact hsign.symm
  subst hblk
  have hfound : fprMatch verifier.keys M.pubkey_fingerprint = true := by
    simp only [fprMatch, List.any_eq_true]
    exact ⟨p, hp, by rw [hfpr, hpf]; exact pyIn_refl _⟩
  have hvd : gpgVerifyData verifier.keys (.sig k.fingerprint M) M = true := by
    simp only [gpgVerifyData, List.any_eq_true, Bool.and_eq_true, decide_eq_true_eq]
    exact ⟨trivial, p, hp, hpf⟩
  simp [verify_signature, hfound, verifyCore, hnf, hvd]

/-- Metadata for the C1 witness: `pubkey_fingerprint` equal to the signing
key's fingerprint `"AAAA"`. -/
def c1goodMeta : AVCFMetadata :=
  ⟨"h", "Jane", none, none, "AAAA", none, none, 0, "avcf-sign", "0.1.0", none, none⟩

/-- Witness for C1 (amended): the concrete round trip through signer and
verifier keyrings returns VALID. -/
theorem round_trip_witness :
    (verify_signature c1verifier ⟨c1goodMeta, .sig "AAAA" c1goodMeta⟩).2 =
      ⟨.VALID, some c1goodMeta, none⟩ :=
  round_trip c1goodMeta c1signer c1verifier "AA" ⟨"AA", "AAAA", true⟩
    ⟨"AA", "AAAA", false⟩ ⟨c1goodMeta, .sig "AAAA" c1goodMeta⟩
    (by rfl) (by rfl) (by rfl) (by simp [c1verifier]) (by rfl) (by rfl)

/-- Metadata for the C7 counterexample. -/
def c7meta : AVCFMetadata :=
  ⟨"h", "a", none, none, "AA", none, none, 0, "avcf-sign", "0.1.0", none, none⟩

/-- Block for the C7 counterexample. -/
def c7blk : SignedAVCFBlock := ⟨c7meta, .garbage "s"⟩

/-- Probe for the C7 counterexample: the `AVCF_AUTH` tag is present in the
first stream's tag map and absent from the format-level tags. -/
def c7probe : ProbeData := ⟨[[("AVCF_AUTH", .block c7blk)]], []⟩

/-- Counterexample to C7 as stated: the Matroska adapter does NOT search
stream tags — on a probe whose only `AVCF_AUTH` tag sits at stream level it
returns `none` instead of the block, so the key is not "absent everywhere"
yet extraction reports no tag. -/
theorem extract_stream_tags_counterexample :
    adapterExtract .mkv (.ok c7probe) = .ok none
    ∧ findStreamTag c7probe.streamTags "AVCF_AUTH" = some (.block c7blk)
    ∧ adapterExtract .mkv (.ok c7probe) ≠ .ok (some c7blk) := by
  refine ⟨rfl, rfl, ?_⟩
  rw [show adapterExtract .mkv (.ok c7probe) = .ok none from rfl]
  simp

/-- C7 (amended): the MP4 adapter searches stream tags first and then
format tags for `avcf_auth`, while the Matroska-family adapter (MKV, and
WebM by delegation) searches only the format-level tags for `AVCF_AUTH`;
both return none when the key is absent from the searched locations, decode
a hit into a SignedBlock, and fail with ContainerError on probe failure or
a malformed/invalid JSON payload. -/
theorem extract_search_order (d : ProbeData) (e : String) (v : TagVal)
    (b : SignedAVCFBlock) :
    (findStreamTag d.streamTags "avcf_auth" = some v →
      adapterExtract .mp4 (.ok d) = decodeTag v)
    ∧ (findStreamTag d.streamTags "avcf_auth" = none →
        lookupTag d.formatTags "avcf_auth" = some v →
        adapterExtract .mp4 (.ok d) = decodeTag v)
    ∧ (findStreamTag d.streamTags "avcf_auth" = none →
        lookupTag d.formatTags "avcf_auth" = none →
        adapterExtract .mp4 (.ok d) = .ok none)
    ∧ (lookupTag d.formatTags "AVCF_AUTH" = some v →
        adapterExtract .mkv (.ok d) = decodeTag v
          ∧ adapterExtract .webm (.ok d) = decodeTag v)
    ∧ (lookupTag d.formatTags "AVCF_AUTH" = none →
        adapterExtract .mkv (.ok d) = .ok none
          ∧ adapterExtract .webm (.ok d) = .ok none)
    ∧ (adapterExtract .mp4 (.error e) =
        .error (.containerError ("Failed to extract metadata from MP4 file: " ++ e)))
    ∧ (adapterExtract .mkv (.error e) =
        .error (.containerError ("Failed to extract metadata from MKV file: " ++ e)))
    ∧ decodeTag (.block b) = .ok (some b)
    ∧ decodeTag (.badJson e) =
        .error (.containerError ("Failed to parse metadata JSON: " ++ e))
    ∧ decodeTag (.badSchema e) =
        .error (.containerError ("Failed to extract metadata: " ++ e)) := by
  refine ⟨?_, ?_, ?_, ?_, ?_, rfl, rfl, rfl, rfl, rfl⟩
  · intro h; simp [adapterExtract, mp4Extract, h]
  · intro h1 h2; simp [adapterExtract, mp4Extract, h1, h2]
  · intro h1 h2; simp [adapterExtract, mp4Extract, h1, h2]
  · intro h; simp [adapterExtract, mkvExtract, h]
  · intro h; simp [adapterExtract, mkvExtract, h]

/-- Witness for C7 (amended): on a probe carrying `avcf_auth` in its first
stream's tags, the MP4 adapter returns that block. -/
theorem extract_search_order_witness :
    adapterExtract .mp4 (.ok ⟨[[("avcf_auth", .block c7blk)]], []⟩) =
      .ok (some c7blk) :=
  (extract_search_order ⟨[[("avcf_auth", .block c7blk)]], []⟩ "" (.block c7blk)
    c7blk).1 (by rfl)

/-- Keyring for C8: one key pair, key id `"AA"`, fingerprint `"AAAA"`,
secret part present. -/
def c8state : CryptoState := ⟨[⟨"AA", "AAAA", true⟩], none⟩

/-- World for C8: hashing, export and embed all succeed. -/
def c8world : SignWorld := ⟨"h", 0, true, none⟩

/-- Counterexample to C8 as stated: signing an `.mp4` input to an `.mkv`
output uses the MP4 adapter — the adapter is selected from the INPUT path's
extension (services.py line 109), not from the output file's extension as
the claim (and spec §4.3) say. -/
theorem signing_pipeline_counterexample :
    (sign_video c8state c8world ".mp4" ".mkv" "AA" "Jane"
        none none none false none none).map (fun r => r.1) = .ok .mp4
    ∧ create_adapter ".mkv" = .ok .mkv
    ∧ Adapter.mp4 ≠ .mkv := by
  exact ⟨rfl, rfl, by decide⟩

/-- C8 (amended): `sign_video` is a linear pipeline — resolve the key
identifier against the keyring (KeyError when no key matches); when
embedding is requested export the public key (KeyError when the export
yields nothing) and attach it; build metadata; sign (CryptoError aborts);
select the container adapter by the INPUT file's extension (ContainerError
aborts); embed (ContainerError aborts); return the embedded block under the
adapter's tag key. Any stage failure aborts the whole operation. -/
theorem signing_pipeline (st : CryptoState) (w : SignWorld)
    (in_sfx out_sfx key_id author_name : String)
    (ae ao url : Option String) (embed_pubkey : Bool)
    (tags : Option (List String)) (notes : Option String) :
    (st.keys.find? (fun k => pyIn key_id k.keyid || pyIn key_id k.fingerprint) = none →
      sign_video st w in_sfx out_sfx key_id author_name ae ao url embed_pubkey tags notes =
        .error (.keyError ("Private key not found: " ++ key_id)))
    ∧ (∀ k, st.keys.find? (fun k => pyIn key_id k.keyid || pyIn key_id k.fingerprint) = some k →
        embed_pubkey = true → w.exportOk = false →
        sign_video st w in_sfx out_sfx key_id author_name ae ao url embed_pubkey tags notes =
          .error (.keyError ("Failed to export public key: " ++ k.fingerprint)))
    ∧ (∀ k emb,
        st.keys.find? (fun k => pyIn key_id k.keyid || pyIn key_id k.fingerprint) = some k →
        (embed_pubkey = false ∧ emb = none
          ∨ embed_pubkey = true ∧ w.exportOk = true ∧ emb = some (.pubkey k.fingerprint)) →
        (∀ e, sign_metadata st (create_metadata w.inputHash w.now author_name k.fingerprint
            ae ao url emb tags notes) key_id = .error e →
          sign_video st w in_sfx out_sfx key_id author_name ae ao url embed_pubkey tags notes =
            .error (.cryptoError e))
        ∧ (∀ blk e, sign_metadata st (create_metadata w.inputHash w.now author_name k.fingerprint
            ae ao url emb tags notes) key_id = .ok blk →
          create_adapter in_sfx = .error e →
          sign_video st w in_sfx out_sfx key_id author_name ae ao url embed_pubkey tags notes =
            .error e)
        ∧ (∀ blk adapter e, sign_metadata st (create_metadata w.inputHash w.now author_name
            k.fingerprint ae ao url emb tags notes) key_id = .ok blk →
          create_adapter in_sfx = .ok adapter → w.embedErr = some e →
          sign_video st w in_sfx out_sfx key_id author_name ae ao url embed_pubkey tags notes =
            .error (.containerError (embedFailMsg adapter e)))
        ∧ (∀ blk adapter, sign_metadata st (create_metadata w.inputHash w.now author_name
            k.fingerprint ae ao url emb tags notes) key_id = .ok blk →
          create_adapter in_sfx = .ok adapter → w.embedErr = none →
          sign_video st w in_sfx out_sfx key_id author_name ae ao url embed_pubkey tags notes =
            .ok (adapter, tagKey adapter, blk))) := by
  refine ⟨?_, ?_, ?_⟩
  · intro h
    simp [sign_video, h]
  · intro k hk hemb hexp
    simp [sign_video, hk, hemb, hexp]
  · intro k emb hk hemb
    have hembSimp :
        (if embed_pubkey then
          if w.exportOk then Except.ok (some (Armored.pubkey k.fingerprint))
          else Except.error (AVCFErr.keyError ("Failed to export public key: " ++ k.fingerprint))
         else Except.ok none) = (.ok emb : Except AVCFErr (Option Armored)) := by
      rcases hemb with ⟨h1, h2⟩ | ⟨h1, h2, h3⟩
      · simp [h1, h2]
      · simp [h1, h2, h3]
    refine ⟨?_, ?_, ?_, ?_⟩
    · intro e hs
      simp [sign_video, hk, hembSimp, hs]
    · intro blk e hs hc
      simp [sign_video, hk, hembSimp, hs, hc]
    · intro blk adapter e hs hc he
      simp [sign_video, hk, hembSimp, hs, hc, adapterEmbed, he]
    · intro blk adapter hs hc he
      simp [sign_video, hk, hembSimp, hs, hc, adapterEmbed, he]

/-- Witness for C8 (amended): the concrete pipeline succeeds, with the
adapter chosen from the input extension `.mp4` and the block written under
`avcf_auth`. -/
theorem signing_pipeline_witness :
    sign_video c8state c8world ".mp4" ".mkv" "AA" "Jane" none none none false none none =
      .ok (.mp4, "avcf_auth",
        ⟨create_metadata "h" 0 "Jane" "AAAA" none none none none none none,
          .sig "AAAA" (create_metadata "h" 0 "Jane" "AAAA" none none none none none none)⟩) :=
  ((signing_pipeline c8state c8world ".mp4" ".mkv" "AA" "Jane" none none none false
      none none).2.2 ⟨"AA", "AAAA", true⟩ none (by rfl) (Or.inl ⟨rfl, rfl⟩)).2.2.2
    ⟨create_metadata "h" 0 "Jane" "AAAA" none none none none none none,
      .sig "AAAA" (create_metadata "h" 0 "Jane" "AAAA" none none none none none none)⟩
    .mp4 (by rfl) (by rfl) (by rfl)
